import Mathlib

/-!
Verification of the Actor kinematics and solid-collision subsystem of
HTML5-Canvas-Game-Boilerplate (src/js/actors.js), shallowly embedded over an
arbitrary linear ordered field `K` (instantiated at `ℚ` for executable
witnesses and at `ℝ` where a square root is needed).

JavaScript numbers are modelled as elements of `K`; the square root used by
the diagonal-speed rescale in `Actor.move` is passed in as a parameter
`sq : K → K` so that the definitions stay computable (theorems about the
rescale instantiate `sq := Real.sqrt`).
-/

section Model

variable {K : Type} [LinearOrderedField K]

/-- An axis-aligned box, as in `Box` (src/js/actors.js): top-left corner plus
extent. -/
structure Box (K : Type) where
  x : K
  y : K
  width : K
  height : K
deriving DecidableEq

/-- World dimensions, supplied by the world-bounds provider (`world.width`,
`world.height`). -/
structure World (K : Type) where
  width : K
  height : K
deriving DecidableEq

/-- Modelled from the spec: the input provider (spec section 6) supplies, once
per step, a set of currently-active logical directions. The key-binding
translation (`keys` and `App.Utils.anyIn`, defined in a utilities file not
present under src/) is abstracted into four booleans, one per logical
direction; `left` and `right` correspond to `anyIn(keys.left, direction)` and
`anyIn(keys.right, direction)`, and similarly for `up` and `down`. -/
structure InputDir where
  left : Bool
  right : Bool
  up : Bool
  down : Bool
deriving DecidableEq

/-- The kinematic actor state: the fields of `Actor` (src/js/actors.js) that
the physics subsystem reads or writes, including its configuration constants.
`jumpDirection.left`/`jumpDirection.right` are flattened into two fields and
`fallLeft : Bool|null` becomes `Option Bool`. -/
structure ActorState (K : Type) where
  x : K
  y : K
  width : K
  height : K
  lastX : K
  lastY : K
  xVelocity : K
  yVelocity : K
  xAcceleration : K
  yAcceleration : K
  GRAVITY : Bool
  STAY_IN_WORLD : Bool
  CONTINUOUS_MOVEMENT : Bool
  JUMP_RELEASE : Bool
  MOVEAMOUNT : K
  G_CONST : K
  JUMP_VEL : K
  JUMP_DELAY : K
  AIR_CONTROL : K
  MULTI_JUMP : Int
  DAMPING_FACTOR : Option K
  lastJump : K
  jumpDirectionLeft : Bool
  jumpDirectionRight : Bool
  jumpKeyDown : Bool
  numJumps : Int
  inAir : Bool
  fallLeft : Option Bool
  lastLooked : InputDir
  lastDirec : InputDir
deriving DecidableEq

/-- The bounding box of an actor (an `Actor` is a `Box` in the source). -/
def actorBox (s : ActorState K) : Box K :=
  ⟨s.x, s.y, s.width, s.height⟩

/-- `Box.overlapsX` (actors.js line 227): closed-interval overlap on the
x-axis, so touching counts as overlap. -/
def overlapsX (a b : Box K) : Bool :=
  decide (a.x + a.width ≥ b.x) && decide (b.x + b.width ≥ a.x)

/-- `Box.overlapsY` (actors.js line 237). -/
def overlapsY (a b : Box K) : Bool :=
  decide (a.y + a.height ≥ b.y) && decide (b.y + b.height ≥ a.y)

/-- `Box.overlaps` (actors.js line 217). -/
def overlaps (a b : Box K) : Bool :=
  overlapsX a b && overlapsY a b

/-- Modelled from the spec: `App.Utils.almostEqual(a, b, tol)` lives in a
utilities file that is not present under src/. The spec describes it as a
tolerance comparison (section 4.4: "within tolerance", "`|actor.bottom -
obstacle.top| ≤ 1px` tolerance"), so it is modelled as `|a - b| ≤ tol`. -/
def almostEqual (a b tol : K) : Bool :=
  decide (|a - b| ≤ tol)

/-- `Actor.isInAir` (actors.js line 2033). -/
def isInAir (s : ActorState K) : Bool :=
  s.inAir

/-- `Actor.standingOn` (actors.js lines 2074-2086) restricted to a plain Box
argument (the Collection/TileMap branch recurses over members; the resolver
only ever passes single boxes). -/
def standingOn (s : ActorState K) (b : Box K) : Bool :=
  overlapsX (actorBox s) b && almostEqual (s.y + s.height) b.y 1

/-- `Actor.stopFalling` (actors.js lines 2016-2025). -/
def stopFalling (s : ActorState K) : ActorState K :=
  let s1 : ActorState K := if s.yAcceleration > 0 then {s with yAcceleration := 0} else s
  let s2 : ActorState K := if s1.yVelocity > 0 then {s1 with yVelocity := 0} else s1
  {s2 with numJumps := 0, inAir := false}

/-- `Actor.startFalling` (actors.js lines 1999-2006). -/
def startFalling (s : ActorState K) : ActorState K :=
  let s1 : ActorState K :=
    if !s.inAir then
      match s.fallLeft with
      | some b => {s with jumpDirectionLeft := b, jumpDirectionRight := !b}
      | none => s
    else s
  {s1 with inAir := true}

/-- `Actor.stayInWorld` (actors.js lines 1774-1790): clamp each axis with an
if/else-if chain; the bottom-edge clamp additionally calls `stopFalling`. -/
def stayInWorld (w : World K) (s : ActorState K) : ActorState K :=
  if s.STAY_IN_WORLD then
    let s1 : ActorState K :=
      if s.x < 0 then {s with x := 0}
      else if s.x + s.width > w.width then {s with x := w.width - s.width}
      else s
    if s1.y < 0 then {s1 with y := 0}
    else if s1.y + s1.height > w.height then
      stopFalling {s1 with y := w.height - s1.height}
    else s1
  else s

/-- `Actor.dampVelocity` (actors.js lines 1799-1812). `delta` is
`App.physicsDelta`; the tolerance 0.0001 is the literal passed to
`almostEqual` in the source. -/
def dampVelocity (delta : K) (s : ActorState K) : ActorState K :=
  match s.DAMPING_FACTOR with
  | some df =>
    if almostEqual s.xVelocity 0 (1 / 10000) then
      let s1 : ActorState K := {s with xVelocity := 0}
      if !s1.GRAVITY then {s1 with yVelocity := 0} else s1
    else
      let s1 : ActorState K := {s with xVelocity := s.xVelocity * (1 - df * delta)}
      if !s1.GRAVITY && !almostEqual s1.yVelocity 0 (1 / 10000) then
        {s1 with yVelocity := s1.yVelocity * (1 - df * delta)}
      else s1
  | none =>
    let s1 : ActorState K := {s with xVelocity := 0}
    if !s1.GRAVITY then {s1 with yVelocity := 0} else s1

/-- The diagonal-speed rescale from `Actor.move` (actors.js lines 1752-1760),
applied to the velocity after the first half-kick. `sq` stands for
`Math.sqrt`. -/
def diagRescale (sq : K → K) (gravity : Bool) (vx vy : K) : K × K :=
  if vx ≠ 0 ∧ vy ≠ 0 ∧ gravity = false then
    let magnitude := max |vx| |vy|
    let origMag := sq (vx * vx + vy * vy)
    let scale := magnitude / origMag
    (vx * scale, vy * scale)
  else (vx, vy)

/-- `Actor.move` (actors.js lines 1747-1769): half-kick, diagonal rescale,
drift, half-kick, then `stayInWorld`. `delta` is `App.physicsDelta`. -/
def move (sq : K → K) (w : World K) (delta : K) (s : ActorState K) :
    ActorState K :=
  let d2 := delta / 2
  let s1 : ActorState K :=
    {s with xVelocity := s.xVelocity + s.xAcceleration * d2,
            yVelocity := s.yVelocity + s.yAcceleration * d2}
  let p := diagRescale sq s1.GRAVITY s1.xVelocity s1.yVelocity
  let s2 : ActorState K := {s1 with xVelocity := p.1, yVelocity := p.2}
  let s3 : ActorState K :=
    {s2 with x := s2.x + s2.xVelocity * delta,
             y := s2.y + s2.yVelocity * delta}
  let s4 : ActorState K :=
    {s3 with xVelocity := s3.xVelocity + s3.xAcceleration * d2,
             yVelocity := s3.yVelocity + s3.yAcceleration * d2}
  stayInWorld w s4

/-- `Actor.ambientAcceleration` (actors.js lines 1725-1742). -/
def ambientAcceleration (s : ActorState K) : ActorState K :=
  if s.GRAVITY then
    if isInAir s then
      let s1 : ActorState K := {s with yAcceleration := s.yAcceleration + s.G_CONST}
      if s1.jumpDirectionLeft then {s1 with xVelocity := -s1.MOVEAMOUNT}
      else if s1.jumpDirectionRight then {s1 with xVelocity := s1.MOVEAMOUNT}
      else s1
    else stopFalling s
  else s

/-- `Actor.moveOutsideX` (actors.js lines 1940-1958): returns the updated
state and the distance moved. -/
def moveOutsideX (s : ActorState K) (b : Box K) : ActorState K × K :=
  if overlaps (actorBox s) b then
    if s.x + s.width / 2 < b.x + b.width / 2 then
      let movedTo : K := b.x - s.width - 1
      ({s with x := movedTo}, movedTo - s.x)
    else
      let movedTo : K := b.x + b.width + 1
      ({s with x := movedTo}, movedTo - s.x)
  else (s, 0)

/-- `Actor.moveOutsideY` (actors.js lines 1971-1989). Note the comparison is
`≤` here, unlike the strict `<` in `moveOutsideX`. -/
def moveOutsideY (s : ActorState K) (b : Box K) : ActorState K × K :=
  if overlaps (actorBox s) b then
    if s.y + s.height / 2 ≤ b.y + b.height / 2 then
      let movedTo : K := b.y - s.height - 1
      ({s with y := movedTo}, movedTo - s.y)
    else
      let movedTo : K := b.y + b.height + 1
      ({s with y := movedTo}, movedTo - s.y)
  else (s, 0)

/-- `Actor.moveOutside` (actors.js lines 1912-1927): returns the updated state
and the `{x, y}` displacement object. -/
def moveOutside (s : ActorState K) (b : Box K) : ActorState K × K × K :=
  let ox := min (s.x + s.width - b.x) (b.x + b.width - s.x)
  let oy := min (s.y + s.height - b.y) (b.y + b.height - s.y)
  if ox ≤ oy then
    let rx := moveOutsideX s b
    let ry := moveOutsideY rx.1 b
    (ry.1, rx.2, ry.2)
  else
    let ry := moveOutsideY s b
    let rx := moveOutsideX ry.1 b
    (rx.1, rx.2, ry.2)

/-- `Actor._collideSolidBox` (actors.js lines 2139-2182): returns the updated
state together with the `falling` and `collided` flags. -/
def collideSolidBox (s0 : ActorState K) (b : Box K) :
    ActorState K × Bool × Bool :=
  let collided := overlaps (actorBox s0) b
  let s1 : ActorState K := if collided then (moveOutside s0 b).1 else s0
  if s1.GRAVITY then
    let savedX := s1.x
    let sCheck : ActorState K := {s1 with x := s1.lastX}
    let standing := standingOn sCheck b
    let s2 : ActorState K := if standing then stopFalling sCheck else sCheck
    let s3 : ActorState K := {s2 with x := savedX}
    let falling := !standing
    let s4 : ActorState K :=
      if falling && collided then
        if almostEqual s3.y (b.y + b.height) 1 then
          let sa : ActorState K := if s3.yAcceleration < 0 then {s3 with yAcceleration := 0}
                    else s3
          if sa.yVelocity < 0 then {sa with yVelocity := 0} else sa
        else {s3 with jumpDirectionLeft := false, jumpDirectionRight := false}
      else s3
    (s4, falling, collided)
  else (s1, true, collided)

/-- The obstacle-set abstraction: `collideSolid` accepts a single `Box` or a
`Collection`/`TileMap`; both container kinds expose their members through
`getAll()` as a flat list, so they share one constructor here. -/
inductive ObstacleSet (K : Type) where
  | single (b : Box K)
  | group (bs : List (Box K))

/-- The member loop of `Actor.collideSolid` (actors.js lines 2107-2116):
threads the state and the `falling`/`collided` accumulators through the
per-box resolver. -/
def collideLoop (s : ActorState K) (falling collided : Bool)
    (bs : List (Box K)) : ActorState K × Bool × Bool :=
  match bs with
  | [] => (s, falling, collided)
  | b :: rest =>
    let r := collideSolidBox s b
    collideLoop r.1 (if !r.2.1 then false else falling)
      (if r.2.2 then true else collided) rest

/-- `Actor.collideSolid` (actors.js lines 2097-2123): returns the updated
state and the `collided` result. -/
def collideSolid (w : World K) (s : ActorState K) (obs : ObstacleSet K) :
    ActorState K × Bool :=
  let falling0 := s.GRAVITY &&
    (decide (s.y + s.height ≠ w.height) || !s.STAY_IN_WORLD)
  match obs with
  | .single b =>
    let r := collideSolidBox s b
    (if r.2.1 then startFalling r.1 else r.1, r.2.2)
  | .group bs =>
    let r := collideLoop s falling0 false bs
    (if r.2.1 then startFalling r.1 else r.1, r.2.2)

/-- Whether some obstacle in the list overlaps the actor at that obstacle's
turn in the iteration (the state is threaded through the per-box resolver, so
later overlap tests see the corrected positions). -/
def anyOverlapDuring (s : ActorState K) (bs : List (Box K)) : Bool :=
  match bs with
  | [] => false
  | b :: rest =>
    overlaps (actorBox s) b || anyOverlapDuring (collideSolidBox s b).1 rest

/-- Whether every obstacle in the list reports "not standing" at its turn in
the iteration. -/
def allNotStandingDuring (s : ActorState K) (bs : List (Box K)) : Bool :=
  match bs with
  | [] => true
  | b :: rest =>
    (collideSolidBox s b).2.1 && allNotStandingDuring (collideSolidBox s b).1 rest

/-- The left/right branch of `Actor.processInput` (actors.js lines 1642-1673):
returns the updated state plus the local `left`, `right`, `looked` flags. -/
def applyLeftRight (s : ActorState K) (dir : InputDir) :
    ActorState K × Bool × Bool × Bool :=
  if dir.left then
    let s1 : ActorState K := {s with fallLeft := some true}
    let s2 : ActorState K :=
      if s1.GRAVITY && isInAir s1 then
        if s1.jumpDirectionRight || !s1.jumpDirectionLeft then
          {s1 with xVelocity := -s1.MOVEAMOUNT * s1.AIR_CONTROL,
                   jumpDirectionRight := false, jumpDirectionLeft := false}
        else s1
      else {s1 with xVelocity := -s1.MOVEAMOUNT}
    (s2, true, false, true)
  else if dir.right then
    let s1 : ActorState K := {s with fallLeft := some false}
    let s2 : ActorState K :=
      if s1.GRAVITY && isInAir s1 then
        if s1.jumpDirectionLeft || !s1.jumpDirectionRight then
          {s1 with xVelocity := s1.MOVEAMOUNT * s1.AIR_CONTROL,
                   jumpDirectionRight := false, jumpDirectionLeft := false}
        else s1
      else {s1 with xVelocity := s1.MOVEAMOUNT}
    (s2, false, true, true)
  else (s, false, false, false)

/-- The jump eligibility guard of `Actor.processInput` (actors.js lines
1681-1683). -/
def jumpEligible (s : ActorState K) : Bool :=
  !isInAir s || decide (s.MULTI_JUMP > s.numJumps) || decide (s.MULTI_JUMP = -1)

/-- The up/down branch of `Actor.processInput` (actors.js lines 1676-1703).
`now` is `App.physicsTimeElapsed`; `left`/`right`/`looked` are the local
flags. Returns the updated state and the updated `looked` flag. -/
def applyUpDown (s : ActorState K) (dir : InputDir) (left right looked : Bool)
    (now : K) : ActorState K × Bool :=
  if dir.up then
    if !s.GRAVITY then
      ({s with yVelocity := -s.MOVEAMOUNT, jumpKeyDown := true}, true)
    else
      let s1 : ActorState K :=
        if jumpEligible s then
          if decide (now - s.lastJump > s.JUMP_DELAY) &&
              (!s.JUMP_RELEASE || !s.jumpKeyDown) then
            {s with yVelocity := -s.JUMP_VEL, lastJump := now,
                    jumpDirectionRight := right, jumpDirectionLeft := left,
                    numJumps := s.numJumps + 1, inAir := true}
          else s
        else s
      ({s1 with jumpKeyDown := true}, looked)
  else if dir.down then
    if !isInAir s || !s.GRAVITY then
      ({s with yVelocity := s.MOVEAMOUNT}, true)
    else (s, looked)
  else (s, looked)

/-- The body of `Actor.processInput` once a direction snapshot has been
resolved (actors.js lines 1640-1717): record `lastDirection`, run the
left/right branch, the up/down branch, and the `lastLooked` update (which
drops non-horizontal directions when gravity is on). -/
def processInputDir (s0 : ActorState K) (dir : InputDir) (now : K) :
    ActorState K :=
  let s1 : ActorState K := {s0 with lastDirec := dir}
  let r1 := applyLeftRight s1 dir
  let r2 := applyUpDown r1.1 dir r1.2.1 r1.2.2.1 r1.2.2.2 now
  if r2.2 then
    {r2.1 with lastLooked :=
      if r2.1.GRAVITY then {dir with up := false, down := false} else dir}
  else r2.1

/-- `Actor.processInput` (actors.js lines 1621-1718). `none` models a missing
or empty direction array: with `CONTINUOUS_MOVEMENT` the last looked direction
is used, otherwise the method returns immediately. -/
def processInput (s : ActorState K) (dirOpt : Option InputDir) (now : K) :
    ActorState K :=
  match dirOpt with
  | none =>
    if s.CONTINUOUS_MOVEMENT then processInputDir s s.lastLooked now else s
  | some dir => processInputDir s dir now

/-- A neutral actor state used as the base for concrete witnesses; the
configuration fields carry the source defaults (actors.js lines 1390-1552),
with `Box.DEFAULT_WIDTH`/`DEFAULT_HEIGHT` = 80. -/
def baseState : ActorState K where
  x := 0
  y := 0
  width := 80
  height := 80
  lastX := 0
  lastY := 0
  xVelocity := 0
  yVelocity := 0
  xAcceleration := 0
  yAcceleration := 0
  GRAVITY := false
  STAY_IN_WORLD := true
  CONTINUOUS_MOVEMENT := false
  JUMP_RELEASE := false
  MOVEAMOUNT := 400
  G_CONST := 21
  JUMP_VEL := 500
  JUMP_DELAY := 1 / 4
  AIR_CONTROL := 1 / 4
  MULTI_JUMP := 0
  DAMPING_FACTOR := none
  lastJump := 0
  jumpDirectionLeft := false
  jumpDirectionRight := false
  jumpKeyDown := false
  numJumps := 0
  inAir := false
  fallLeft := none
  lastLooked := ⟨false, false, false, false⟩
  lastDirec := ⟨false, false, false, false⟩

/-- An input snapshot holding only the jump (up) direction. -/
def inputUp : InputDir := ⟨false, false, true, false⟩

end Model

section Theorems

variable {K : Type} [LinearOrderedField K]

lemma stopFalling_fields (s : ActorState K) :
    (stopFalling s).x = s.x ∧ (stopFalling s).y = s.y ∧
    (stopFalling s).width = s.width ∧ (stopFalling s).height = s.height ∧
    (stopFalling s).numJumps = 0 ∧ (stopFalling s).inAir = false ∧
    (stopFalling s).yVelocity ≤ 0 ∧
    (stopFalling s).STAY_IN_WORLD = s.STAY_IN_WORLD ∧
    (stopFalling s).lastX = s.lastX := by
  simp only [stopFalling]
  split_ifs <;> simp_all

lemma stayInWorld_bounds (w : World K) (s : ActorState K)
    (hs : s.STAY_IN_WORLD = true) (hw : s.width ≤ w.width)
    (hh : s.height ≤ w.height) :
    0 ≤ (stayInWorld w s).x ∧
    (stayInWorld w s).x + (stayInWorld w s).width ≤ w.width ∧
    0 ≤ (stayInWorld w s).y ∧
    (stayInWorld w s).y + (stayInWorld w s).height ≤ w.height := by
  unfold stayInWorld
  rw [hs]
  simp only [if_true]
  split_ifs with h1 h2 h3 h4 h3 h4 h3 h4 <;>
    simp_all [stopFalling_fields]

lemma stayInWorld_landing (w : World K) (s : ActorState K)
    (hs : s.STAY_IN_WORLD = true) (hh : s.height ≤ w.height)
    (hb : s.y + s.height > w.height) :
    (stayInWorld w s).inAir = false ∧ (stayInWorld w s).numJumps = 0 ∧
    (stayInWorld w s).yVelocity ≤ 0 := by
  unfold stayInWorld
  rw [hs]
  simp only [if_true]
  split_ifs <;>
    first
      | exact ⟨(stopFalling_fields _).2.2.2.2.2.1, (stopFalling_fields _).2.2.2.2.1,
          (stopFalling_fields _).2.2.2.2.2.2.1⟩
      | (exfalso; simp_all; linarith)

lemma move_eq_stayInWorld (sq : K → K) (w : World K) (delta : K)
    (s : ActorState K) :
    ∃ t : ActorState K, move sq w delta s = stayInWorld w t ∧
      t.width = s.width ∧ t.height = s.height ∧
      t.STAY_IN_WORLD = s.STAY_IN_WORLD :=
  ⟨_, rfl, rfl, rfl, rfl⟩

/-- C5: for an actor with STAY_IN_WORLD (and fitting inside the world), after
`stayInWorld` — and hence after a `move` step, which ends in `stayInWorld` —
both position axes are clamped into the world bounds, and when the bottom-edge
clamp fires (`y + height > world.height` before clamping) the actor lands:
`inAir = false`, `numJumps = 0` and `yVelocity ≤ 0`. -/
theorem stayInWorld_clamp_spec (sq : K → K) (w : World K) (delta : K)
    (s : ActorState K) (hs : s.STAY_IN_WORLD = true) (hw : s.width ≤ w.width)
    (hh : s.height ≤ w.height) :
    (0 ≤ (stayInWorld w s).x ∧
     (stayInWorld w s).x + (stayInWorld w s).width ≤ w.width ∧
     0 ≤ (stayInWorld w s).y ∧
     (stayInWorld w s).y + (stayInWorld w s).height ≤ w.height) ∧
    (s.y + s.height > w.height →
      (stayInWorld w s).inAir = false ∧ (stayInWorld w s).numJumps = 0 ∧
      (stayInWorld w s).yVelocity ≤ 0) ∧
    (0 ≤ (move sq w delta s).x ∧
     (move sq w delta s).x + (move sq w delta s).width ≤ w.width ∧
     0 ≤ (move sq w delta s).y ∧
     (move sq w delta s).y + (move sq w delta s).height ≤ w.height) := by
  refine ⟨stayInWorld_bounds w s hs hw hh,
    fun hb => stayInWorld_landing w s hs hh hb, ?_⟩
  obtain ⟨t, ht, htw, hth, hts⟩ := move_eq_stayInWorld sq w delta s
  rw [ht]
  exact stayInWorld_bounds w t (hts.trans hs) (by rw [htw]; exact hw)
    (by rw [hth]; exact hh)

/-- C5 witness: a 10x10 actor at (-5, 95) falling with yVelocity 50 in a
100x100 world is clamped to x = 0, y = 90 and lands. -/
theorem stayInWorld_clamp_spec_witness :
    (stayInWorld (⟨100, 100⟩ : World ℚ)
      {baseState with
        width := 10, height := 10, x := -5, y := 95,
        yVelocity := 50, GRAVITY := true, inAir := true, numJumps := 2}).inAir
        = false ∧
    0 ≤ (stayInWorld (⟨100, 100⟩ : World ℚ)
      {baseState with
        width := 10, height := 10, x := -5, y := 95,
        yVelocity := 50, GRAVITY := true, inAir := true, numJumps := 2}).x := by
  have h := stayInWorld_clamp_spec (K := ℚ) (fun q => q) ⟨100, 100⟩ 0
    {baseState with
      width := 10, height := 10, x := -5, y := 95,
      yVelocity := 50, GRAVITY := true, inAir := true, numJumps := 2}
    rfl (by norm_num [baseState]) (by norm_num [baseState])
  exact ⟨(h.2.1 (by norm_num [baseState])).1, h.1.1⟩

/-- C6: a grounded actor with recorded horizontal motion (`fallLeft` set)
that starts falling gets its `jumpDirection` set to the direction it was
moving, `inAir` becomes true, `numJumps` is unchanged, and the next
`ambientAcceleration` step with gravity re-asserts the horizontal velocity to
±MOVEAMOUNT, so it is nonzero. -/
theorem startFalling_ledge_spec (s : ActorState K) (b : Bool)
    (hG : s.GRAVITY = true) (hair : s.inAir = false) (hfl : s.fallLeft = some b)
    (hM : 0 < s.MOVEAMOUNT) :
    (startFalling s).jumpDirectionLeft = b ∧
    (startFalling s).jumpDirectionRight = !b ∧
    (startFalling s).inAir = true ∧
    (startFalling s).numJumps = s.numJumps ∧
    (ambientAcceleration (startFalling s)).xVelocity =
      (if b = true then -s.MOVEAMOUNT else s.MOVEAMOUNT) ∧
    (ambientAcceleration (startFalling s)).xVelocity ≠ 0 := by
  have h1 : startFalling s =
      {s with jumpDirectionLeft := b, jumpDirectionRight := !b, inAir := true} := by
    simp [startFalling, hair, hfl]
  cases b <;>
    simp [h1, ambientAcceleration, isInAir, hG, neg_ne_zero] <;>
    exact ne_of_gt hM

/-- C6 witness: a grounded actor that was moving right (`fallLeft = some
false`) keeps horizontal velocity MOVEAMOUNT = 400 on the first airborne
step. -/
theorem startFalling_ledge_spec_witness :
    (ambientAcceleration (startFalling
      {baseState (K := ℚ) with GRAVITY := true, fallLeft := some false})).xVelocity
        = 400 ∧
    (startFalling
      {baseState (K := ℚ) with GRAVITY := true, fallLeft := some false}).numJumps = 0 := by
  have h := startFalling_ledge_spec (K := ℚ)
    {baseState with GRAVITY := true, fallLeft := some false} false
    rfl rfl rfl (by norm_num [baseState])
  refine ⟨?_, by simpa [baseState] using h.2.2.2.1⟩
  have h5 := h.2.2.2.2.1
  simpa [baseState] using h5

/-- C7 counterexample: with DAMPING_FACTOR = 1/2, dt = 1/2, GRAVITY off,
xVelocity = 0 and yVelocity = 100, the code hard-zeroes the vertical velocity
(the `almostEqual(xVelocity, 0, 0.0001)` guard routes to the hard-zero
branch), while the claim predicts yVelocity = 100 * (1 - 1/2 * 1/2) = 75. -/
theorem dampVelocity_cex :
    (dampVelocity (1/2)
      {baseState (K := ℚ) with
        DAMPING_FACTOR := some (1/2),
        yVelocity := 100}).yVelocity ≠ (100 : ℚ) * (1 - (1/2) * (1/2)) := by
  with_unfolding_all decide

/-- C7 (amended): with DAMPING_FACTOR set and xVelocity not within 0.0001 of
zero, the horizontal velocity is multiplied by (1 - DAMPING_FACTOR*dt), and
the vertical velocity likewise when additionally GRAVITY is off and yVelocity
is not within 0.0001 of zero (unchanged when GRAVITY is on or yVelocity is
within tolerance); otherwise — DAMPING_FACTOR null or xVelocity within 0.0001
of zero — the horizontal velocity is hard-zeroed and the vertical one too
exactly when GRAVITY is off. -/
theorem dampVelocity_spec (delta : K) (s : ActorState K) :
    (∀ df, s.DAMPING_FACTOR = some df →
      (almostEqual s.xVelocity 0 (1/10000) = false →
        (dampVelocity delta s).xVelocity = s.xVelocity * (1 - df * delta) ∧
        (s.GRAVITY = false → almostEqual s.yVelocity 0 (1/10000) = false →
          (dampVelocity delta s).yVelocity = s.yVelocity * (1 - df * delta)) ∧
        (s.GRAVITY = true → (dampVelocity delta s).yVelocity = s.yVelocity) ∧
        (almostEqual s.yVelocity 0 (1/10000) = true →
          (dampVelocity delta s).yVelocity = s.yVelocity)) ∧
      (almostEqual s.xVelocity 0 (1/10000) = true →
        (dampVelocity delta s).xVelocity = 0 ∧
        (s.GRAVITY = false → (dampVelocity delta s).yVelocity = 0) ∧
        (s.GRAVITY = true → (dampVelocity delta s).yVelocity = s.yVelocity))) ∧
    (s.DAMPING_FACTOR = none →
      (dampVelocity delta s).xVelocity = 0 ∧
      (s.GRAVITY = false → (dampVelocity delta s).yVelocity = 0) ∧
      (s.GRAVITY = true → (dampVelocity delta s).yVelocity = s.yVelocity)) := by
  refine ⟨fun df hdf =>
      ⟨fun hx => ⟨?_, fun hg hy => ?_, fun hg => ?_, fun hy => ?_⟩,
       fun hx => ⟨?_, fun hg => ?_, fun hg => ?_⟩⟩,
    fun hn => ⟨?_, fun hg => ?_, fun hg => ?_⟩⟩ <;>
  · first
      | (simp only [dampVelocity, hdf, hx]; split_ifs <;> simp_all)
      | (simp only [dampVelocity, hn]; split_ifs <;> simp_all)

/-- C7 witness: with DAMPING_FACTOR = 1/2, dt = 1/2, GRAVITY off and velocity
(100, 100), both axes are scaled by 3/4. -/
theorem dampVelocity_spec_witness :
    (dampVelocity (1/2)
      {baseState (K := ℚ) with
        DAMPING_FACTOR := some (1/2), xVelocity := 100,
        yVelocity := 100}).xVelocity = 75 ∧
    (dampVelocity (1/2)
      {baseState (K := ℚ) with
        DAMPING_FACTOR := some (1/2), xVelocity := 100,
        yVelocity := 100}).yVelocity = 75 := by
  have h := (dampVelocity_spec (K := ℚ) (1/2)
    {baseState with
      DAMPING_FACTOR := some (1/2), xVelocity := 100,
      yVelocity := 100}).1 (1/2) rfl
  have hx : almostEqual (100 : ℚ) 0 (1/10000) = false := by
    with_unfolding_all decide
  have h1 := (h.1 hx).1
  have h2 := (h.1 hx).2.1 rfl hx
  constructor
  · rw [show (75 : ℚ) = 100 * (1 - (1/2) * (1/2)) by norm_num]
    exact h1
  · rw [show (75 : ℚ) = 100 * (1 - (1/2) * (1/2)) by norm_num]
    exact h2

lemma moveOutsideX_push (s : ActorState K) (b : Box K)
    (hov : overlaps (actorBox s) b = true) :
    overlaps (actorBox (moveOutsideX s b).1) b = false ∧
    (moveOutsideX s b).1.x =
      (if s.x + s.width / 2 < b.x + b.width / 2 then b.x - s.width - 1
       else b.x + b.width + 1) ∧
    (moveOutsideX s b).1.y = s.y ∧
    (moveOutsideX s b).2 = (moveOutsideX s b).1.x - s.x := by
  unfold moveOutsideX
  rw [if_pos hov]
  split_ifs with hc <;> refine ⟨?_, rfl, rfl, rfl⟩ <;>
    simp only [overlaps, overlapsX, overlapsY, actorBox,
      Bool.and_eq_false_iff, decide_eq_false_iff_not]
  · left
    left
    intro h
    simp only [ge_iff_le] at h
    linarith
  · left
    right
    intro h
    simp only [ge_iff_le] at h
    linarith

lemma moveOutsideY_push (s : ActorState K) (b : Box K)
    (hov : overlaps (actorBox s) b = true) :
    overlaps (actorBox (moveOutsideY s b).1) b = false ∧
    (moveOutsideY s b).1.y =
      (if s.y + s.height / 2 ≤ b.y + b.height / 2 then b.y - s.height - 1
       else b.y + b.height + 1) ∧
    (moveOutsideY s b).1.x = s.x ∧
    (moveOutsideY s b).2 = (moveOutsideY s b).1.y - s.y := by
  unfold moveOutsideY
  rw [if_pos hov]
  split_ifs with hc <;> refine ⟨?_, rfl, rfl, rfl⟩ <;>
    simp only [overlaps, overlapsX, overlapsY, actorBox,
      Bool.and_eq_false_iff, decide_eq_false_iff_not]
  · right
    left
    intro h
    simp only [ge_iff_le] at h
    linarith
  · right
    right
    intro h
    simp only [ge_iff_le] at h
    linarith

lemma moveOutsideX_skip (s : ActorState K) (b : Box K)
    (h : overlaps (actorBox s) b = false) : moveOutsideX s b = (s, 0) := by
  unfold moveOutsideX
  rw [if_neg (by simp [h])]

lemma moveOutsideY_skip (s : ActorState K) (b : Box K)
    (h : overlaps (actorBox s) b = false) : moveOutsideY s b = (s, 0) := by
  unfold moveOutsideY
  rw [if_neg (by simp [h])]

/-- C2 counterexample: actor (x 0, y 0, w 100, h 10) against obstacle
(x 0, y 2, w 10, h 6): the penetration depths are ox = 10, oy = 8, so the Y
axis is resolved first; the Y centers are equal (both 5), and the code moves
the actor to the TOP (`obstacle.y - height - 1 = -9`, the `≤` branch of
`moveOutsideY`), while the claim's strict "less than" rule predicts the
bottom, `obstacle.end + 1 = 9`. -/
theorem moveOutside_cex :
    overlaps
      (actorBox {baseState (K := ℚ) with x := 0, y := 0, width := 100, height := 10})
      ⟨0, 2, 10, 6⟩ = true ∧
    (moveOutside
      {baseState (K := ℚ) with x := 0, y := 0, width := 100, height := 10}
      ⟨0, 2, 10, 6⟩).1.y ≠
      (if (0 : ℚ) + 10 / 2 < 2 + 6 / 2 then (2 : ℚ) - 10 - 1 else 2 + 6 + 1) := by
  constructor
  · with_unfolding_all decide
  · with_unfolding_all decide

/-- C2 (amended): for overlapping boxes, `moveOutside` resolves the axis of
smaller penetration first (tie goes to X); on the X axis the actor moves to
the left side exactly when its center is strictly left of the obstacle's, on
the Y axis it moves to the top side when its center is less than OR EQUAL to
the obstacle's; the displacement on the resolved axis is returned, and the
other axis is left unchanged (displacement 0) because the overlap is already
resolved when it is processed. -/
theorem moveOutside_spec (s : ActorState K) (b : Box K)
    (hov : overlaps (actorBox s) b = true) :
    (min (s.x + s.width - b.x) (b.x + b.width - s.x) ≤
       min (s.y + s.height - b.y) (b.y + b.height - s.y) →
      ((moveOutside s b).1.x =
        (if s.x + s.width / 2 < b.x + b.width / 2 then b.x - s.width - 1
         else b.x + b.width + 1) ∧
       (moveOutside s b).1.y = s.y ∧
       (moveOutside s b).2.1 = (moveOutside s b).1.x - s.x ∧
       (moveOutside s b).2.2 = 0)) ∧
    (min (s.y + s.height - b.y) (b.y + b.height - s.y) <
       min (s.x + s.width - b.x) (b.x + b.width - s.x) →
      ((moveOutside s b).1.y =
        (if s.y + s.height / 2 ≤ b.y + b.height / 2 then b.y - s.height - 1
         else b.y + b.height + 1) ∧
       (moveOutside s b).1.x = s.x ∧
       (moveOutside s b).2.2 = (moveOutside s b).1.y - s.y ∧
       (moveOutside s b).2.1 = 0)) := by
  constructor
  · intro hle
    obtain ⟨hnov, hxval, hyval, hdisp⟩ := moveOutsideX_push s b hov
    simp only [moveOutside]
    rw [if_pos hle, moveOutsideY_skip _ _ hnov]
    exact ⟨hxval, hyval, hdisp, rfl⟩
  · intro hlt
    obtain ⟨hnov, hyval, hxval, hdisp⟩ := moveOutsideY_push s b hov
    simp only [moveOutside]
    rw [if_neg (not_le.mpr hlt), moveOutsideX_skip _ _ hnov]
    exact ⟨hyval, hxval, hdisp, rfl⟩

/-- C2 witness: a 10x10 actor at (0, 0) and obstacle (8, 0, 10, 10): X
penetration 2 is smaller, the actor's center is left of the obstacle's, so
the actor is pushed to x = 8 - 10 - 1 = -3 with displacement -3 and the Y
axis untouched. -/
theorem moveOutside_spec_witness :
    (moveOutside {baseState (K := ℚ) with x := 0, y := 0, width := 10, height := 10}
      ⟨8, 0, 10, 10⟩).1.x =
      (if (0 : ℚ) + 10 / 2 < 8 + 10 / 2 then (8 : ℚ) - 10 - 1 else 8 + 10 + 1) ∧
    (moveOutside {baseState (K := ℚ) with x := 0, y := 0, width := 10, height := 10}
      ⟨8, 0, 10, 10⟩).2.2 = 0 := by
  have h := (moveOutside_spec (K := ℚ)
    {baseState with x := 0, y := 0, width := 10, height := 10} ⟨8, 0, 10, 10⟩
    (by with_unfolding_all decide)).1 (by norm_num [baseState])
  exact ⟨by simpa [baseState] using h.1, h.2.2.2⟩

lemma moveOutside_pres (s : ActorState K) (b : Box K) :
    (moveOutside s b).1.GRAVITY = s.GRAVITY ∧
    (moveOutside s b).1.lastX = s.lastX ∧
    (moveOutside s b).1.width = s.width ∧
    (moveOutside s b).1.height = s.height := by
  simp only [moveOutside, moveOutsideX, moveOutsideY]
  split_ifs <;> simp

set_option maxHeartbeats 1600000 in
/-- C3: with gravity on, the per-obstacle resolver computes its `falling`
flag as the negation of the standing test evaluated on the post-`moveOutside`
state with its x temporarily replaced by `lastX`, and the final state's x is
the (restored) post-`moveOutside` x; the standing test holds iff the
horizontal ranges (at `lastX`) overlap and the actor's bottom is within 1
pixel of the obstacle's top. -/
theorem collideSolidBox_standing_spec (s s1 : ActorState K) (b : Box K)
    (hG : s.GRAVITY = true)
    (hs1 : s1 = if overlaps (actorBox s) b = true then (moveOutside s b).1 else s) :
    ((collideSolidBox s b).2.1 = !standingOn {s1 with x := s1.lastX} b) ∧
    ((collideSolidBox s b).1.x = s1.x) ∧
    (standingOn {s1 with x := s1.lastX} b = true ↔
      (b.x ≤ s1.lastX + s1.width ∧ s1.lastX ≤ b.x + b.width ∧
       |s1.y + s1.height - b.y| ≤ 1)) := by
  have hg1 : s1.GRAVITY = true := by
    rw [hs1]
    split_ifs with h
    · exact ((moveOutside_pres s b).1).trans hG
    · exact hG
  simp only [collideSolidBox]
  rw [← hs1, if_pos hg1]
  refine ⟨rfl, ?_, ?_⟩
  · split_ifs <;> rfl
  · simp [standingOn, overlapsX, almostEqual, actorBox, and_assoc, ge_iff_le]

/-- C3 witness: a 10x10 actor whose bottom (29) is within 1px of the top of a
platform at y = 30 and does not overlap it is reported standing, with
`falling = false`. -/
theorem collideSolidBox_standing_spec_witness :
    (collideSolidBox
      {baseState (K := ℚ) with
        GRAVITY := true, x := 5, lastX := 5, y := 19, width := 10, height := 10}
      ⟨0, 30, 100, 10⟩).2.1 = false ∧
    (collideSolidBox
      {baseState (K := ℚ) with
        GRAVITY := true, x := 5, lastX := 5, y := 19, width := 10, height := 10}
      ⟨0, 30, 100, 10⟩).1.x = 5 := by
  have hno : ¬(overlaps (actorBox
      {baseState (K := ℚ) with
        GRAVITY := true, x := 5, lastX := 5, y := 19, width := 10, height := 10})
      ⟨0, 30, 100, 10⟩ = true) := by
    with_unfolding_all decide
  have h := collideSolidBox_standing_spec (K := ℚ)
    {baseState with
      GRAVITY := true, x := 5, lastX := 5, y := 19, width := 10, height := 10}
    {baseState with
      GRAVITY := true, x := 5, lastX := 5, y := 19, width := 10, height := 10}
    ⟨0, 30, 100, 10⟩ rfl (if_neg hno).symm
  refine ⟨?_, h.2.1⟩
  rw [h.1]
  with_unfolding_all decide

lemma collideSolidBox_collided (s : ActorState K) (b : Box K) :
    (collideSolidBox s b).2.2 = overlaps (actorBox s) b := by
  simp only [collideSolidBox]
  by_cases h :
      (if overlaps (actorBox s) b = true then (moveOutside s b).1 else s).GRAVITY = true
  · rw [if_pos h]
  · rw [if_neg h]

lemma collideLoop_flags (bs : List (Box K)) (s : ActorState K) (f c : Bool) :
    (collideLoop s f c bs).2.1 = (f && allNotStandingDuring s bs) ∧
    (collideLoop s f c bs).2.2 = (c || anyOverlapDuring s bs) ∧
    (collideLoop s f c bs).1 = (collideLoop s true false bs).1 := by
  induction bs generalizing s f c with
  | nil => simp [collideLoop, allNotStandingDuring, anyOverlapDuring]
  | cons b rest ih =>
    simp only [collideLoop, allNotStandingDuring, anyOverlapDuring]
    refine ⟨?_, ?_, ?_⟩
    · rw [(ih _ _ _).1]
      cases hfb : (collideSolidBox s b).2.1 <;> simp [Bool.and_assoc]
    · rw [(ih _ _ _).2.1, collideSolidBox_collided]
      cases hc2 : overlaps (actorBox s) b <;> simp [Bool.or_assoc]
    · exact ((ih _ _ _).2.2).trans ((ih _ _ _).2.2).symm

/-- C4 (amended): `collideSolid` returns true iff some contained obstacle
overlapped the actor at its turn in the iteration (for a single Box, iff that
box overlapped). For a Collection/TileMap the falling flag is the seed
`GRAVITY && (y + height ≠ world.height || !STAY_IN_WORLD)` conjoined with
every per-obstacle "not standing" result, and `startFalling` runs after the
loop exactly when that flag is true; for a single Box the seed is discarded
and the per-box falling result alone decides whether `startFalling` runs. -/
theorem collideSolid_spec (w : World K) (s : ActorState K) (b : Box K)
    (bs : List (Box K)) :
    ((collideSolid w s (.single b)).2 = overlaps (actorBox s) b) ∧
    ((collideSolid w s (.group bs)).2 = anyOverlapDuring s bs) ∧
    ((collideSolid w s (.group bs)).1 =
      (if ((s.GRAVITY && (decide (s.y + s.height ≠ w.height) || !s.STAY_IN_WORLD)) &&
            allNotStandingDuring s bs) = true
       then startFalling (collideLoop s
         (s.GRAVITY && (decide (s.y + s.height ≠ w.height) || !s.STAY_IN_WORLD))
         false bs).1
       else (collideLoop s
         (s.GRAVITY && (decide (s.y + s.height ≠ w.height) || !s.STAY_IN_WORLD))
         false bs).1)) ∧
    ((collideSolid w s (.single b)).1 =
      (if (collideSolidBox s b).2.1 = true
       then startFalling (collideSolidBox s b).1
       else (collideSolidBox s b).1)) := by
  refine ⟨?_, ?_, ?_, ?_⟩
  · simp only [collideSolid]
    exact collideSolidBox_collided s b
  · simp only [collideSolid]
    rw [(collideLoop_flags bs s _ false).2.1]
    simp
  · simp only [collideSolid]
    rw [(collideLoop_flags bs s _ false).1]
  · rfl

/-- C4 counterexample: an actor resting exactly on the world floor (seed
false) against a single far-away Box: the claimed seeded conjunction is
false, so no fall should start, yet the single-Box branch of `collideSolid`
discards the seed and calls `startFalling` (inAir becomes true), unlike the
Collection branch containing the same box. -/
theorem collideSolid_cex :
    (collideSolid (⟨1000, 100⟩ : World ℚ)
      {baseState with GRAVITY := true, y := 20, width := 10, height := 80}
      (.single ⟨500, 500, 10, 10⟩)).1.inAir = true ∧
    (collideSolid (⟨1000, 100⟩ : World ℚ)
      {baseState with GRAVITY := true, y := 20, width := 10, height := 80}
      (.group [⟨500, 500, 10, 10⟩])).1.inAir = false ∧
    ({baseState (K := ℚ) with
       GRAVITY := true, y := 20, width := 10, height := 80}.GRAVITY &&
      (decide (((20 : ℚ) + 80) ≠ (100 : ℚ)) ||
       !{baseState (K := ℚ) with
          GRAVITY := true, y := 20, width := 10, height := 80}.STAY_IN_WORLD)) = false := by
  refine ⟨?_, ?_, ?_⟩ <;> with_unfolding_all decide

lemma applyLeftRight_pres (s : ActorState K) (dir : InputDir) :
    (applyLeftRight s dir).1.yVelocity = s.yVelocity ∧
    (applyLeftRight s dir).1.lastJump = s.lastJump ∧
    (applyLeftRight s dir).1.numJumps = s.numJumps ∧
    (applyLeftRight s dir).1.inAir = s.inAir ∧
    (applyLeftRight s dir).1.jumpKeyDown = s.jumpKeyDown ∧
    (applyLeftRight s dir).1.GRAVITY = s.GRAVITY ∧
    (applyLeftRight s dir).1.MULTI_JUMP = s.MULTI_JUMP ∧
    (applyLeftRight s dir).1.JUMP_DELAY = s.JUMP_DELAY ∧
    (applyLeftRight s dir).1.JUMP_VEL = s.JUMP_VEL ∧
    (applyLeftRight s dir).1.JUMP_RELEASE = s.JUMP_RELEASE := by
  simp only [applyLeftRight]
  split_ifs <;> simp

lemma applyLeftRight_flags (s : ActorState K) (dir : InputDir) :
    (applyLeftRight s dir).2.1 = dir.left ∧
    (applyLeftRight s dir).2.2.1 = (!dir.left && dir.right) := by
  simp only [applyLeftRight]
  split_ifs <;> simp_all

lemma applyUpDown_result (t : ActorState K) (dir : InputDir) (l r lk : Bool)
    (now : K) (hGt : t.GRAVITY = true) (hup : dir.up = true) :
    (applyUpDown t dir l r lk now).1 =
      (if (jumpEligible t &&
           (decide (now - t.lastJump > t.JUMP_DELAY) &&
            (!t.JUMP_RELEASE || !t.jumpKeyDown))) = true then
         {t with yVelocity := -t.JUMP_VEL, lastJump := now,
                 jumpDirectionRight := r, jumpDirectionLeft := l,
                 numJumps := t.numJumps + 1, inAir := true,
                 jumpKeyDown := true}
       else {t with jumpKeyDown := true}) := by
  simp only [applyUpDown, hup, hGt]
  cases hje : jumpEligible t <;>
    cases hd : (decide (now - t.lastJump > t.JUMP_DELAY) &&
        (!t.JUMP_RELEASE || !t.jumpKeyDown)) <;>
    simp [hje, hd, hGt]

lemma processInputDir_fields (s : ActorState K) (dir : InputDir) (now : K) :
    (processInputDir s dir now).yVelocity =
      (applyUpDown (applyLeftRight {s with lastDirec := dir} dir).1 dir
        (applyLeftRight {s with lastDirec := dir} dir).2.1
        (applyLeftRight {s with lastDirec := dir} dir).2.2.1
        (applyLeftRight {s with lastDirec := dir} dir).2.2.2 now).1.yVelocity ∧
    (processInputDir s dir now).lastJump =
      (applyUpDown (applyLeftRight {s with lastDirec := dir} dir).1 dir
        (applyLeftRight {s with lastDirec := dir} dir).2.1
        (applyLeftRight {s with lastDirec := dir} dir).2.2.1
        (applyLeftRight {s with lastDirec := dir} dir).2.2.2 now).1.lastJump ∧
    (processInputDir s dir now).numJumps =
      (applyUpDown (applyLeftRight {s with lastDirec := dir} dir).1 dir
        (applyLeftRight {s with lastDirec := dir} dir).2.1
        (applyLeftRight {s with lastDirec := dir} dir).2.2.1
        (applyLeftRight {s with lastDirec := dir} dir).2.2.2 now).1.numJumps ∧
    (processInputDir s dir now).inAir =
      (applyUpDown (applyLeftRight {s with lastDirec := dir} dir).1 dir
        (applyLeftRight {s with lastDirec := dir} dir).2.1
        (applyLeftRight {s with lastDirec := dir} dir).2.2.1
        (applyLeftRight {s with lastDirec := dir} dir).2.2.2 now).1.inAir ∧
    (processInputDir s dir now).jumpDirectionLeft =
      (applyUpDown (applyLeftRight {s with lastDirec := dir} dir).1 dir
        (applyLeftRight {s with lastDirec := dir} dir).2.1
        (applyLeftRight {s with lastDirec := dir} dir).2.2.1
        (applyLeftRight {s with lastDirec := dir} dir).2.2.2 now).1.jumpDirectionLeft ∧
    (processInputDir s dir now).jumpDirectionRight =
      (applyUpDown (applyLeftRight {s with lastDirec := dir} dir).1 dir
        (applyLeftRight {s with lastDirec := dir} dir).2.1
        (applyLeftRight {s with lastDirec := dir} dir).2.2.1
        (applyLeftRight {s with lastDirec := dir} dir).2.2.2 now).1.jumpDirectionRight := by
  simp only [processInputDir]
  split <;> simp

set_option maxHeartbeats 1600000 in
/-- C1: with gravity on, an up (jump) input is accepted iff (not inAir, or
numJumps < MULTI_JUMP, or MULTI_JUMP = -1) and now - lastJump > JUMP_DELAY
and (JUMP_RELEASE is off or the jump key is up); on acceptance yVelocity
becomes -JUMP_VEL, lastJump becomes now, numJumps is incremented, inAir
becomes true and jumpDirection records the current horizontal input (left
wins over right, as in the left/right branch); on rejection yVelocity and
lastJump are unchanged. -/
theorem processInput_jump_spec (s : ActorState K) (dir : InputDir) (now : K)
    (hG : s.GRAVITY = true) (hup : dir.up = true) :
    (((s.inAir = false ∨ s.numJumps < s.MULTI_JUMP ∨ s.MULTI_JUMP = -1) ∧
      now - s.lastJump > s.JUMP_DELAY ∧
      (s.JUMP_RELEASE = false ∨ s.jumpKeyDown = false)) →
      ((processInput s (some dir) now).yVelocity = -s.JUMP_VEL ∧
       (processInput s (some dir) now).lastJump = now ∧
       (processInput s (some dir) now).numJumps = s.numJumps + 1 ∧
       (processInput s (some dir) now).inAir = true ∧
       (processInput s (some dir) now).jumpDirectionLeft = dir.left ∧
       (processInput s (some dir) now).jumpDirectionRight =
         (!dir.left && dir.right))) ∧
    (¬((s.inAir = false ∨ s.numJumps < s.MULTI_JUMP ∨ s.MULTI_JUMP = -1) ∧
       now - s.lastJump > s.JUMP_DELAY ∧
       (s.JUMP_RELEASE = false ∨ s.jumpKeyDown = false)) →
      ((processInput s (some dir) now).yVelocity = s.yVelocity ∧
       (processInput s (some dir) now).lastJump = s.lastJump)) := by
  obtain ⟨hy, hlj, hnj, hia, hkd, hgr, hmj, hjd, hjv, hjr⟩ :=
    applyLeftRight_pres {s with lastDirec := dir} dir
  obtain ⟨hfl, hfr⟩ := applyLeftRight_flags {s with lastDirec := dir} dir
  obtain ⟨py, plj, pnj, pia, pjl, pjr⟩ := processInputDir_fields s dir now
  have hGt : (applyLeftRight {s with lastDirec := dir} dir).1.GRAVITY = true := by
    rw [hgr]; exact hG
  have har := applyUpDown_result (applyLeftRight {s with lastDirec := dir} dir).1
    dir (applyLeftRight {s with lastDirec := dir} dir).2.1
    (applyLeftRight {s with lastDirec := dir} dir).2.2.1
    (applyLeftRight {s with lastDirec := dir} dir).2.2.2 now hGt hup
  have hcond : (jumpEligible (applyLeftRight {s with lastDirec := dir} dir).1 &&
      (decide (now - (applyLeftRight {s with lastDirec := dir} dir).1.lastJump >
        (applyLeftRight {s with lastDirec := dir} dir).1.JUMP_DELAY) &&
       (!(applyLeftRight {s with lastDirec := dir} dir).1.JUMP_RELEASE ||
        !(applyLeftRight {s with lastDirec := dir} dir).1.jumpKeyDown))) =
      (jumpEligible s &&
       (decide (now - s.lastJump > s.JUMP_DELAY) &&
        (!s.JUMP_RELEASE || !s.jumpKeyDown))) := by
    simp only [jumpEligible, isInAir, hia, hnj, hmj, hlj, hjd, hjr, hkd]
  rw [hcond] at har
  have haccb : ((s.inAir = false ∨ s.numJumps < s.MULTI_JUMP ∨ s.MULTI_JUMP = -1) ∧
      now - s.lastJump > s.JUMP_DELAY ∧
      (s.JUMP_RELEASE = false ∨ s.jumpKeyDown = false)) ↔
      (jumpEligible s &&
       (decide (now - s.lastJump > s.JUMP_DELAY) &&
        (!s.JUMP_RELEASE || !s.jumpKeyDown))) = true := by
    simp only [jumpEligible, isInAir, Bool.and_eq_true, Bool.or_eq_true,
      decide_eq_true_eq, Bool.not_eq_true', gt_iff_lt]
    tauto
  constructor
  · intro hacc
    rw [haccb.mp hacc] at har
    simp at har
    simp only [processInput]
    refine ⟨?_, ?_, ?_, ?_, ?_, ?_⟩
    · rw [py, har]; simp [hjv]
    · rw [plj, har]
    · rw [pnj, har]; simp [hnj]
    · rw [pia, har]
    · rw [pjl, har]; simpa using hfl
    · rw [pjr, har]; simpa using hfr
  · intro hnacc
    have hb : (jumpEligible s &&
        (decide (now - s.lastJump > s.JUMP_DELAY) &&
         (!s.JUMP_RELEASE || !s.jumpKeyDown))) = false := by
      cases hbb : (jumpEligible s &&
          (decide (now - s.lastJump > s.JUMP_DELAY) &&
           (!s.JUMP_RELEASE || !s.jumpKeyDown)))
      · rfl
      · exact absurd (haccb.mpr hbb) hnacc
    rw [hb] at har
    simp at har
    simp only [processInput]
    constructor
    · rw [py, har]; simp [hy]
    · rw [plj, har]; simp [hlj]

/-- C1 witness: a grounded actor with gravity at time 1 (last jump at 0,
JUMP_DELAY 1/4) accepts the jump: yVelocity becomes -JUMP_VEL = -500 and
numJumps becomes 1. -/
theorem processInput_jump_spec_witness :
    (processInput {baseState (K := ℚ) with GRAVITY := true}
      (some inputUp) 1).yVelocity = -500 ∧
    (processInput {baseState (K := ℚ) with GRAVITY := true}
      (some inputUp) 1).numJumps = 1 := by
  have h := (processInput_jump_spec (K := ℚ) {baseState with GRAVITY := true}
    inputUp 1 rfl rfl).1
    ⟨Or.inl rfl, by norm_num [baseState], Or.inl rfl⟩
  exact ⟨by simpa [baseState] using h.1, by simpa using h.2.2.1⟩

set_option maxRecDepth 8192 in
/-- C10 counterexample: a falling actor (inAir, numJumps = 0) with gravity
submits a jump at time 1: with MULTI_JUMP = 1 the jump is accepted
(yVelocity becomes -500), with MULTI_JUMP = 0 it is rejected (yVelocity
stays 0), so the two configuration values are not behaviorally identical. -/
theorem processInput_multiJump_cex :
    (processInput
      {baseState (K := ℚ) with
        GRAVITY := true, inAir := true, numJumps := 0, MULTI_JUMP := 1}
      (some inputUp) 1).yVelocity ≠
    (processInput
      {baseState (K := ℚ) with
        GRAVITY := true, inAir := true, numJumps := 0, MULTI_JUMP := 0}
      (some inputUp) 1).yVelocity := by
  with_unfolding_all decide

lemma applyLeftRight_mj (s t : ActorState K) (dir : InputDir) (m : Int)
    (ht : t = {s with MULTI_JUMP := m}) :
    applyLeftRight t dir =
      ({(applyLeftRight s dir).1 with MULTI_JUMP := m},
       (applyLeftRight s dir).2) := by
  subst ht
  simp only [applyLeftRight, isInAir]
  split_ifs <;> rfl

lemma applyUpDown_mj (t tm tm' : ActorState K) (dir : InputDir) (l r lk : Bool)
    (now : K) (m m' : Int) (htm : tm = {t with MULTI_JUMP := m})
    (htm' : tm' = {t with MULTI_JUMP := m'})
    (he : jumpEligible tm = jumpEligible tm') :
    applyUpDown tm dir l r lk now =
      ({(applyUpDown tm' dir l r lk now).1 with MULTI_JUMP := m},
       (applyUpDown tm' dir l r lk now).2) := by
  subst htm
  subst htm'
  simp only [applyUpDown, isInAir]
  rw [he]
  split_ifs <;> rfl

lemma processInputDir_mj01 (s : ActorState K) (dir : InputDir) (now : K)
    (h : s.inAir = false ∨ 1 ≤ s.numJumps) :
    processInputDir {s with MULTI_JUMP := 0} dir now =
      {processInputDir {s with MULTI_JUMP := 1} dir now with MULTI_JUMP := 0} := by
  have heqflat : (!s.inAir || decide ((0 : Int) > s.numJumps) ||
        decide ((0 : Int) = -1)) =
      (!s.inAir || decide ((1 : Int) > s.numJumps) || decide ((1 : Int) = -1)) := by
    rcases h with h | h
    · simp [h]
    · rw [decide_eq_false (by omega : ¬((0 : Int) > s.numJumps)),
          decide_eq_false (by omega : ¬((1 : Int) > s.numJumps))]
      simp
  have hjeX : ∀ k : Int,
      jumpEligible
        {(applyLeftRight {s with lastDirec := dir} dir).1 with MULTI_JUMP := k} =
      (!s.inAir || decide (k > s.numJumps) || decide (k = -1)) := by
    intro k
    simp [jumpEligible, isInAir,
      (applyLeftRight_pres {s with lastDirec := dir} dir).2.2.1,
      (applyLeftRight_pres {s with lastDirec := dir} dir).2.2.2.1]
  have he' : jumpEligible
        {(applyLeftRight {s with lastDirec := dir} dir).1 with
          MULTI_JUMP := (0 : Int)} =
      jumpEligible
        {(applyLeftRight {s with lastDirec := dir} dir).1 with
          MULTI_JUMP := (1 : Int)} :=
    (hjeX 0).trans (heqflat.trans (hjeX 1).symm)
  simp only [processInputDir]
  rw [applyLeftRight_mj {s with lastDirec := dir}
      {s with MULTI_JUMP := (0 : Int), lastDirec := dir} dir 0 rfl,
    applyLeftRight_mj {s with lastDirec := dir}
      {s with MULTI_JUMP := (1 : Int), lastDirec := dir} dir 1 rfl]
  dsimp only
  rw [applyUpDown_mj (applyLeftRight {s with lastDirec := dir} dir).1
      {(applyLeftRight {s with lastDirec := dir} dir).1 with MULTI_JUMP := (0 : Int)}
      {(applyLeftRight {s with lastDirec := dir} dir).1 with MULTI_JUMP := (1 : Int)}
      dir (applyLeftRight {s with lastDirec := dir} dir).2.1
      (applyLeftRight {s with lastDirec := dir} dir).2.2.1
      (applyLeftRight {s with lastDirec := dir} dir).2.2.2 now 0 1 rfl rfl he']
  dsimp only
  split_ifs <;> rfl

/-- C10 (amended): the jump-acceptance decision and all state updates of
`processInput` agree between MULTI_JUMP = 0 and MULTI_JUMP = 1 for every
state that is grounded or has numJumps ≥ 1 — the results are equal except for
the MULTI_JUMP field itself. The two values differ exactly on airborne states
with numJumps = 0 (falling without having jumped), where MULTI_JUMP = 1
accepts a mid-air jump and MULTI_JUMP = 0 rejects it. -/
theorem processInput_multiJump_equiv (s : ActorState K) (dirOpt : Option InputDir)
    (now : K) (h : s.inAir = false ∨ 1 ≤ s.numJumps) :
    processInput {s with MULTI_JUMP := 0} dirOpt now =
      {processInput {s with MULTI_JUMP := 1} dirOpt now with MULTI_JUMP := 0} := by
  cases dirOpt with
  | none =>
    simp only [processInput]
    split_ifs with hc
    · exact processInputDir_mj01 s s.lastLooked now h
    · rfl
  | some dir => exact processInputDir_mj01 s dir now h

/-- C10 amended-claim witness: a grounded actor accepts its jump identically
under MULTI_JUMP = 0 and MULTI_JUMP = 1. -/
theorem processInput_multiJump_equiv_witness :
    processInput {baseState (K := ℚ) with GRAVITY := true, MULTI_JUMP := 0}
        (some inputUp) 1 =
      {processInput {baseState (K := ℚ) with GRAVITY := true, MULTI_JUMP := 1}
        (some inputUp) 1 with MULTI_JUMP := 0} :=
  processInput_multiJump_equiv {baseState with GRAVITY := true} (some inputUp) 1
    (Or.inl rfl)

/-- C8: with GRAVITY off and both velocity components nonzero, the
diagonal-speed rescale (using the real square root, as `Math.sqrt`) produces
a vector whose Euclidean magnitude is exactly max(|vx|, |vy|) of the
pre-rescale vector; and the rescale is skipped whenever either component is
zero or GRAVITY is on. -/
theorem diagRescale_magnitude (vx vy : ℝ) :
    (vx ≠ 0 → vy ≠ 0 →
      Real.sqrt ((diagRescale Real.sqrt false vx vy).1 ^ 2 +
        (diagRescale Real.sqrt false vx vy).2 ^ 2) = max |vx| |vy|) ∧
    (∀ g : Bool, vx = 0 ∨ vy = 0 ∨ g = true →
      diagRescale Real.sqrt g vx vy = (vx, vy)) := by
  constructor
  · intro hx hy
    have hpos : (0 : ℝ) < vx * vx + vy * vy := by
      have h1 := mul_self_pos.mpr hx
      have h2 := mul_self_nonneg vy
      linarith
    have hsq : Real.sqrt (vx * vx + vy * vy) ^ 2 = vx * vx + vy * vy :=
      Real.sq_sqrt hpos.le
    have hm : (0 : ℝ) ≤ max |vx| |vy| :=
      le_max_iff.mpr (Or.inl (abs_nonneg vx))
    have hcond : vx ≠ 0 ∧ vy ≠ 0 ∧ (false : Bool) = false := ⟨hx, hy, rfl⟩
    unfold diagRescale
    rw [if_pos hcond]
    dsimp only
    have key : (vx * (max |vx| |vy| / Real.sqrt (vx * vx + vy * vy))) ^ 2 +
        (vy * (max |vx| |vy| / Real.sqrt (vx * vx + vy * vy))) ^ 2 =
        (max |vx| |vy|) ^ 2 := by
      have expand : (vx * (max |vx| |vy| / Real.sqrt (vx * vx + vy * vy))) ^ 2 +
          (vy * (max |vx| |vy| / Real.sqrt (vx * vx + vy * vy))) ^ 2 =
          (vx * vx + vy * vy) *
            ((max |vx| |vy|) ^ 2 / Real.sqrt (vx * vx + vy * vy) ^ 2) := by
        ring
      rw [expand, hsq, mul_comm, div_mul_cancel₀ _ hpos.ne']
    rw [key, Real.sqrt_sq hm]
  · intro g hg
    simp only [diagRescale]
    rw [if_neg]
    rintro ⟨h1, h2, h3⟩
    rcases hg with h | h | h
    · exact h1 h
    · exact h2 h
    · rw [h] at h3
      simp at h3

/-- C8 witness: at velocity (3, 4) with GRAVITY off, the post-rescale
magnitude is max(|3|, |4|); with GRAVITY on the rescale is skipped. -/
theorem diagRescale_magnitude_witness :
    Real.sqrt ((diagRescale Real.sqrt false (3 : ℝ) 4).1 ^ 2 +
      (diagRescale Real.sqrt false (3 : ℝ) 4).2 ^ 2) = max |(3 : ℝ)| |(4 : ℝ)| ∧
    diagRescale Real.sqrt true (3 : ℝ) 4 = (3, 4) :=
  ⟨(diagRescale_magnitude 3 4).1 (by norm_num) (by norm_num),
   (diagRescale_magnitude 3 4).2 true (Or.inr (Or.inr rfl))⟩

set_option maxHeartbeats 1600000 in
/-- C9 counterexample: with dt = 0, GRAVITY off and velocity (3, 4), `move`
is not a no-op: the diagonal rescale fires regardless of dt and changes the
vertical velocity from 4 to 4 * (4 / 5) = 16/5. -/
theorem move_zero_dt_cex :
    (move Real.sqrt ⟨100, 100⟩ 0
      {baseState (K := ℝ) with
        x := 10, y := 10, width := 5, height := 5,
        xVelocity := 3, yVelocity := 4}).yVelocity ≠
    ({baseState (K := ℝ) with
        x := 10, y := 10, width := 5, height := 5,
        xVelocity := 3, yVelocity := 4}).yVelocity := by
  have h25 : Real.sqrt (25 : ℝ) = 5 := by
    rw [show (25 : ℝ) = 5 ^ 2 by norm_num]
    exact Real.sqrt_sq (by norm_num)
  have habs3 : |(3 : ℝ)| = 3 := abs_of_pos (by norm_num)
  have habs4 : |(4 : ℝ)| = 4 := abs_of_pos (by norm_num)
  norm_num [move, diagRescale, stayInWorld, stopFalling, baseState,
    h25, habs3, habs4]

lemma stayInWorld_inert (w : World K) (s : ActorState K)
    (hin : s.STAY_IN_WORLD = false ∨
      (0 ≤ s.x ∧ s.x + s.width ≤ w.width ∧ 0 ≤ s.y ∧ s.y + s.height ≤ w.height)) :
    stayInWorld w s = s := by
  simp only [stayInWorld]
  rcases hin with h | ⟨h1, h2, h3, h4⟩
  · rw [if_neg (by simp [h])]
  · split_ifs <;> first | rfl | (exfalso; linarith)

/-- C9 (amended): with dt = 0, `move` leaves the whole state unchanged
provided the diagonal rescale does not fire (some velocity component is zero
or GRAVITY is on) and the world clamp does not fire (STAY_IN_WORLD off, or
the actor already inside the world bounds); and whenever the rescale does
fire, its divisor — the square root of vx² + vy², both nonzero — is nonzero,
so no division by zero occurs. -/
theorem move_zero_dt (sq : K → K) (w : World K) (s : ActorState K)
    (hres : s.xVelocity = 0 ∨ s.yVelocity = 0 ∨ s.GRAVITY = true)
    (hin : s.STAY_IN_WORLD = false ∨
      (0 ≤ s.x ∧ s.x + s.width ≤ w.width ∧ 0 ≤ s.y ∧ s.y + s.height ≤ w.height)) :
    move sq w 0 s = s ∧
    (∀ vx vy : K, vx ≠ 0 → vy ≠ 0 →
      sq (vx * vx + vy * vy) * sq (vx * vx + vy * vy) = vx * vx + vy * vy →
      sq (vx * vx + vy * vy) ≠ 0) := by
  constructor
  · have hv1 : s.xVelocity + s.xAcceleration * ((0 : K) / 2) = s.xVelocity := by
      ring
    have hv2 : s.yVelocity + s.yAcceleration * ((0 : K) / 2) = s.yVelocity := by
      ring
    have hskip : diagRescale sq s.GRAVITY s.xVelocity s.yVelocity =
        (s.xVelocity, s.yVelocity) := by
      simp only [diagRescale]
      rw [if_neg]
      rintro ⟨h1, h2, h3⟩
      rcases hres with h | h | h
      · exact h1 h
      · exact h2 h
      · rw [h] at h3
        simp at h3
    have hx0 : s.x + s.xVelocity * (0 : K) = s.x := by ring
    have hy0 : s.y + s.yVelocity * (0 : K) = s.y := by ring
    simp only [move]
    rw [hv1, hv2, hskip]
    dsimp only
    rw [hx0, hy0, hv1, hv2]
    exact (stayInWorld_inert w _ hin).trans rfl
  · intro vx vy hx hy hsq
    intro h0
    rw [h0, mul_zero] at hsq
    have h1 := mul_self_pos.mpr hx
    have h2 := mul_self_nonneg vy
    linarith

/-- C9 amended-claim witness: with dt = 0, horizontal velocity 0 and an
in-bounds actor, `move` returns the state unchanged. -/
theorem move_zero_dt_witness :
    move (fun q : ℚ => q) ⟨100, 100⟩ 0
      {baseState with x := 10, y := 10, width := 5, height := 5, yVelocity := 4} =
    {baseState (K := ℚ) with
      x := 10, y := 10, width := 5, height := 5, yVelocity := 4} :=
  (move_zero_dt (fun q : ℚ => q) ⟨100, 100⟩
    {baseState with x := 10, y := 10, width := 5, height := 5, yVelocity := 4}
    (Or.inl rfl) (Or.inr (by norm_num [baseState]))).1

end Theorems
